import Mathlib

/-!
Verification development for the bot's persistence layer
(src/utils/database.py and src/utils/tickets.py).

The SQLite tables are embedded as Lean lists of row structures, in insertion
order; SQL `SELECT ... WHERE k = ?` with `fetchone` becomes `List.find?`,
`UPDATE ... WHERE k = ?` becomes `List.map` guarded on the key, `DELETE`
becomes `List.filter`, and `INSERT` appends.  SQLite timestamps
(`CURRENT_TIMESTAMP`, `datetime.now().isoformat()`) are abstracted to integers
supplied as explicit `now` parameters; `datetime.fromisoformat` is then the
identity.  Python `None` arguments become `Option.none`.

The process-wide `db_lock` is a non-reentrant `threading.Lock`; an attempt to
acquire it while the same thread already holds it blocks forever.  Executions
that interact with the lock are therefore modelled as `Option`-valued:
`none` stands for the operation never completing (deadlock).
-/

/-! ## Guild configuration table (`guild_config`) -/

/-- One row of the `guild_config` table: `guild_id INTEGER PRIMARY KEY`,
three nullable channel columns, and the two timestamp columns. -/
structure GuildRow where
  guild_id : Int
  channel_id : Option Int
  log_channel_id : Option Int
  support_channel_id : Option Int
  created_at : Int
  updated_at : Int
deriving DecidableEq, Repr

/-- `get_guild_config` (database.py:148): `SELECT * FROM guild_config WHERE
guild_id = ?`, `fetchone`, returning the row as a dict or `None`. -/
def get_guild_config (g : Int) (t : List GuildRow) : Option GuildRow :=
  t.find? (fun r => r.guild_id == g)

/-- The table transformation performed by the body of `set_guild_config`
(database.py:169-196) once the existence check has produced `existing`:
if a row exists, `UPDATE` only the provided (non-`None`) fields and refresh
`updated_at` (skipping the statement entirely when no field was provided);
otherwise `INSERT` a fresh row with the provided values. -/
def set_guild_config_body (now g : Int) (c l s : Option Int)
    (t : List GuildRow) (existing : Option GuildRow) : List GuildRow :=
  match existing with
  | some _ =>
    if c.isSome || l.isSome || s.isSome then
      t.map (fun r =>
        if r.guild_id == g then
          { r with
            channel_id := if c.isSome then c else r.channel_id
            log_channel_id := if l.isSome then l else r.log_channel_id
            support_channel_id := if s.isSome then s else r.support_channel_id
            updated_at := now }
        else r)
    else t
  | none => t ++ [⟨g, c, l, s, now, now⟩]

/-- The data-level semantics of `set_guild_config` (database.py:161-196):
the existence check read feeds the update/insert branch.  This is what the
SQL statements compute, leaving the lock discipline aside (see
`set_guild_config_run` for the lock-faithful execution). -/
def set_guild_config_data (now g : Int) (c l s : Option Int)
    (t : List GuildRow) : List GuildRow :=
  set_guild_config_body now g c l s t (get_guild_config g t)

/-- Execution of `get_guild_config` through the connection guard: the body of
`get_db_connection` (database.py:25) enters `with db_lock`; if the lock is
already held by the caller the non-reentrant acquire blocks forever
(`none`). -/
def get_guild_config_run (lockHeld : Bool) (g : Int) (t : List GuildRow) :
    Option (Option GuildRow) :=
  if lockHeld then none else some (get_guild_config g t)

/-- Execution of `set_guild_config` (database.py:161-196) through the
connection guard: it enters `with get_db_connection()` and then, on line 167,
calls `get_guild_config` — which itself enters `with get_db_connection()` —
while the lock is already held. -/
def set_guild_config_run (lockHeld : Bool) (now g : Int) (c l s : Option Int)
    (t : List GuildRow) : Option (List GuildRow) :=
  if lockHeld then none
  else
    (get_guild_config_run true g t).map (set_guild_config_body now g c l s t)

/-- Entering a `with get_db_connection()` block counts one nested acquisition
when the process-wide lock is already held by the current operation. -/
def guardEnter (lockHeld : Bool) : Nat :=
  if lockHeld then 1 else 0

/-- Nested lock acquisitions performed by `get_guild_config`: one guard
entry, no further store calls inside it. -/
def get_guild_config_acqs (lockHeld : Bool) : Nat :=
  guardEnter lockHeld

/-- Nested lock acquisitions performed by `set_guild_config`: one guard
entry, then the call to `get_guild_config` (database.py:167) executed with
the lock held. -/
def set_guild_config_acqs (lockHeld : Bool) : Nat :=
  guardEnter lockHeld + get_guild_config_acqs true

/-- Nested lock acquisitions performed by each of the remaining public store
operations (reactions, admin, banned, global settings, tickets): a single
guard entry with no nested store call. -/
def plain_store_op_acqs (lockHeld : Bool) : Nat :=
  guardEnter lockHeld

/-! ## The connection guard (`get_db_connection`, database.py:19-38) -/

/-- Observable process state around one guard invocation: whether the data
directory exists, the committed contents of the storage file (abstract type
`δ`), whether `db_lock` is held, and how many connections are open. -/
structure GuardState (δ : Type) where
  dirExists : Bool
  dbFile : δ
  lockHeld : Bool
  openConns : Nat
deriving Repr

/-- `get_db_connection` (database.py:19-38) running a body `fn`:
`with db_lock` (a non-reentrant acquire — `none` if already held by the
caller), `os.makedirs(..., exist_ok=True)`, `sqlite3.connect`, then
`try: yield; conn.commit()` / `except: conn.rollback(); raise` /
`finally: conn.close()`, and release of the lock on leaving the `with`.
`fn` maps the file contents to either an error (a raised exception) or a
result together with the transaction's pending contents; commit persists
them, rollback discards them and re-raises. -/
def get_db_connection_run {δ α : Type} (s : GuardState δ)
    (fn : δ → Except String (α × δ)) :
    Option (Except String α × GuardState δ) :=
  if s.lockHeld then none
  else
    match fn s.dbFile with
    | .ok (a, db') => some (.ok a, ⟨true, db', false, s.openConns + 1 - 1⟩)
    | .error e => some (.error e, ⟨true, s.dbFile, false, s.openConns + 1 - 1⟩)

/-! ## Admin allowlist (`admin_users`) and ban list (`banned_users`) -/

/-- One row of `admin_users`: `user_id INTEGER PRIMARY KEY`, `added_at`. -/
structure AdminRow where
  user_id : Int
  added_at : Int
deriving DecidableEq, Repr

/-- One row of `banned_users`: `user_id INTEGER PRIMARY KEY` with nullable
`reason` and `banned_by`, plus `banned_at`. -/
structure BannedRow where
  user_id : Int
  reason : Option String
  banned_by : Option Int
  banned_at : Int
deriving DecidableEq, Repr

/-- The `UNIQUE`/primary-key conflict test for `admin_users`. -/
def hasAdminUser (u : Int) (t : List AdminRow) : Bool :=
  t.any (fun r => r.user_id == u)

/-- The `UNIQUE`/primary-key conflict test for `banned_users`. -/
def hasBannedUser (u : Int) (t : List BannedRow) : Bool :=
  t.any (fun r => r.user_id == u)

/-- `add_admin_user` (database.py:311-321): `INSERT INTO admin_users`; a
duplicate primary key raises `sqlite3.IntegrityError`, which the
`try/except` catches, returning `False`; otherwise `True`. -/
def add_admin_user (now u : Int) (t : List AdminRow) : Bool × List AdminRow :=
  if hasAdminUser u t then (false, t)
  else (true, t ++ [⟨u, now⟩])

/-- `ban_user` (database.py:352-363): `INSERT INTO banned_users`; a duplicate
primary key raises `sqlite3.IntegrityError`, caught and turned into
`False`; otherwise `True`. -/
def ban_user (now u : Int) (reason : Option String) (banned_by : Option Int)
    (t : List BannedRow) : Bool × List BannedRow :=
  if hasBannedUser u t then (false, t)
  else (true, t ++ [⟨u, reason, banned_by, now⟩])

/-! ## Reaction counters (`user_reactions`) -/

/-- One row of `user_reactions` (the surrogate `id` column and the extra
timestamps are kept only as far as the claims need them):
`UNIQUE(guild_id, user_id)`, an integer `reaction_count`, and
`last_reaction_at`/`updated_at` stamps. -/
structure ReactionRow where
  guild_id : Int
  user_id : Int
  reaction_count : Int
  last_reaction_at : Option Int
  updated_at : Int
deriving DecidableEq, Repr

/-- The `UNIQUE(guild_id, user_id)` conflict test. -/
def hasReactionRow (g u : Int) (t : List ReactionRow) : Bool :=
  t.any (fun r => r.guild_id == g && r.user_id == u)

/-- `get_user_reactions` (database.py:236-247): `SELECT reaction_count ...
WHERE guild_id = ? AND user_id = ?`; the count if a row exists, else `0`. -/
def get_user_reactions (g u : Int) (t : List ReactionRow) : Int :=
  match t.find? (fun r => r.guild_id == g && r.user_id == u) with
  | some r => r.reaction_count
  | none => 0

/-- `increment_user_reactions` (database.py:250-262): `INSERT ... ON CONFLICT
(guild_id, user_id) DO UPDATE SET reaction_count = reaction_count + ?` —
insert a row with count `d` when the pair is absent, otherwise add `d`
to the existing row's count in the same statement. -/
def increment_user_reactions (now g u d : Int) (t : List ReactionRow) :
    List ReactionRow :=
  if hasReactionRow g u t then
    t.map (fun r =>
      if r.guild_id == g && r.user_id == u then
        { r with reaction_count := r.reaction_count + d,
                 last_reaction_at := some now, updated_at := now }
      else r)
  else t ++ [⟨g, u, d, some now, now⟩]

/-! ## Tickets (`tickets`, database.py:386-521 and tickets.py) -/

/-- One row of the `tickets` table (database.py:109-125): `ticket_id TEXT
PRIMARY KEY`, the requester and guild identity, the request `message`, the
`status` string (initially `open`), `created_at`, and the nullable response
and close metadata columns. -/
structure Ticket where
  ticket_id : String
  user_id : Int
  user_name : String
  guild_id : Int
  guild_name : String
  message : String
  status : String
  created_at : Int
  admin_response : Option String
  admin_responder : Option String
  response_timestamp : Option Int
  closed_by : Option String
  closed_timestamp : Option Int
deriving DecidableEq, Repr

/-- The primary-key conflict test for `tickets`. -/
def hasTicketRow (tid : String) (t : List Ticket) : Bool :=
  t.any (fun r => r.ticket_id == tid)

/-- `create_ticket` (database.py:386-395): a bare `INSERT INTO tickets ...
VALUES (..., 'open')` with **no** `try/except` around it — a duplicate
`ticket_id` raises `sqlite3.IntegrityError`, which propagates to the caller
(and rolls the guard's transaction back); on success it returns the id. -/
def db_create_ticket (tid : String) (uid : Int) (uname : String) (gid : Int)
    (gname : String) (msg : String) (now : Int) (t : List Ticket) :
    Except String (String × List Ticket) :=
  if hasTicketRow tid t then
    .error "IntegrityError: UNIQUE constraint failed: tickets.ticket_id"
  else
    .ok (tid, t ++ [⟨tid, uid, uname, gid, gname, msg, "open", now,
                     none, none, none, none, none⟩])

/-- `get_ticket` (database.py:398-406): `SELECT * FROM tickets WHERE
ticket_id = ?`, `fetchone`. -/
def get_ticket (tid : String) (t : List Ticket) : Option Ticket :=
  t.find? (fun r => r.ticket_id == tid)

/-- The keyword-argument bag `**updates` accepted by `update_ticket`.  The
only keys its callers ever pass (close_ticket, database.py:431-445, and the
migration script) are the mutable status/response/close columns, each
present (`some`) or absent (`none`) in the bag. -/
structure TicketUpdates where
  status : Option String := none
  admin_response : Option String := none
  admin_responder : Option String := none
  response_timestamp : Option Int := none
  closed_by : Option String := none
  closed_timestamp : Option Int := none
deriving DecidableEq, Repr

/-- Python's `if not updates:` test — the bag carries no key at all. -/
def TicketUpdates.isEmptyBag (u : TicketUpdates) : Bool :=
  u.status.isNone && u.admin_response.isNone && u.admin_responder.isNone &&
  u.response_timestamp.isNone && u.closed_by.isNone && u.closed_timestamp.isNone

/-- The dynamic `SET k = ?` clauses built by `update_ticket`
(database.py:418-426) applied to one row: every key present in the bag
overwrites its column, every absent key leaves its column alone. -/
def applyTicketUpdates (u : TicketUpdates) (r : Ticket) : Ticket :=
  { r with
    status := match u.status with | some v => v | none => r.status
    admin_response :=
      if u.admin_response.isSome then u.admin_response else r.admin_response
    admin_responder :=
      if u.admin_responder.isSome then u.admin_responder else r.admin_responder
    response_timestamp :=
      if u.response_timestamp.isSome then u.response_timestamp
      else r.response_timestamp
    closed_by := if u.closed_by.isSome then u.closed_by else r.closed_by
    closed_timestamp :=
      if u.closed_timestamp.isSome then u.closed_timestamp
      else r.closed_timestamp }

/-- `update_ticket` (database.py:409-428): `if not updates: return False`;
otherwise run one `UPDATE tickets SET ... WHERE ticket_id = ?` and return
`cursor.rowcount > 0` — whether any row matched the id. -/
def update_ticket (tid : String) (u : TicketUpdates) (t : List Ticket) :
    Bool × List Ticket :=
  if u.isEmptyBag then (false, t)
  else
    (hasTicketRow tid t,
     t.map (fun r => if r.ticket_id == tid then applyTicketUpdates u r else r))

/-- Python truthiness of an optional string argument (`if admin_response:`) —
`None` and the empty string are falsy. -/
def truthyStr (o : Option String) : Bool :=
  match o with
  | none => false
  | some s => !(s == "")

/-- `close_ticket` (database.py:431-445): builds the updates dict with
`status = "closed_by_<closed_by>"`, `closed_timestamp` (stamped at `now₁`)
and `closed_by`; adds `admin_response` when that argument is truthy; adds
`admin_responder` and `response_timestamp` (stamped at `now₂`) when the
responder argument is truthy; then delegates to `update_ticket`. -/
def close_ticket (now₁ now₂ : Int) (tid : String) (closed_by : String)
    (admin_response admin_responder : Option String) (t : List Ticket) :
    Bool × List Ticket :=
  let u₀ : TicketUpdates :=
    { status := some ("closed_by_" ++ closed_by),
      closed_timestamp := some now₁,
      closed_by := some closed_by }
  let u₁ := if truthyStr admin_response
    then { u₀ with admin_response := admin_response } else u₀
  let u₂ := if truthyStr admin_responder
    then { u₁ with admin_responder := admin_responder,
                   response_timestamp := some now₂ } else u₁
  update_ticket tid u₂ t

/-- `delete_ticket` (database.py:448-453): `DELETE FROM tickets WHERE
ticket_id = ?`, returning `cursor.rowcount > 0`. -/
def delete_ticket (tid : String) (t : List Ticket) : Bool × List Ticket :=
  (hasTicketRow tid t, t.filter (fun r => !(r.ticket_id == tid)))

/-- `get_all_tickets` with no filter (database.py:477-494) materialises every
row keyed by its primary key; under the primary-key invariant the dict holds
exactly the table's rows, so the model hands the table itself to the
caller (`cleanup_old_tickets` only iterates it, so ordering is immaterial). -/
def db_get_all_tickets (t : List Ticket) : List Ticket := t

/-- A lowercase hexadecimal digit, as Python's `uuid.UUID.__str__` emits. -/
def hexDigitChar (n : Nat) : Char :=
  if n < 10 then Char.ofNat (48 + n) else Char.ofNat (87 + n)

/-- Big-endian, zero-padded hexadecimal rendering of `n` to `w` digits. -/
def natToHexChars : Nat → Nat → List Char
  | 0, _ => []
  | w + 1, n => natToHexChars w (n / 16) ++ [hexDigitChar (n % 16)]

/-- `str(uuid.uuid4())` for the 128-bit value `n`: the 32 hex digits grouped
8-4-4-4-12 with hyphens. -/
def uuidCanonicalChars (n : Nat) : List Char :=
  let h := natToHexChars 32 (n % 2 ^ 128)
  h.take 8 ++ '-' ::
    ((h.drop 8).take 4 ++ '-' ::
      ((h.drop 12).take 4 ++ '-' ::
        ((h.drop 16).take 4 ++ '-' :: h.drop 20)))

/-- The ticket id scheme of tickets.py:39: `str(uuid.uuid4())[:8]`. -/
def ticket_id_of_uuid (n : Nat) : String :=
  String.mk ((uuidCanonicalChars n).take 8)

/-- `create_ticket` (tickets.py:36-44): slice a fresh uuid to 8 characters,
insert through `db_create_ticket` (whose integrity error, if any,
propagates), and return the ticket id. -/
def tickets_create_ticket (n : Nat) (now : Int) (uid : Int) (uname : String)
    (gid : Int) (gname : String) (msg : String) (t : List Ticket) :
    Except String (String × List Ticket) :=
  let tid := ticket_id_of_uuid n
  (db_create_ticket tid uid uname gid gname msg now t).map
    (fun p => (tid, p.2))

/-- The selection test of `cleanup_old_tickets` (tickets.py:76-81): status
begins with `closed` and `created_at` is before `now - days_old` days. -/
def shouldCleanup (cutoff : Int) (tk : Ticket) : Bool :=
  tk.status.startsWith "closed" && decide (tk.created_at < cutoff)

/-- One iteration of the deletion loop of `cleanup_old_tickets`
(tickets.py:84-87): delete the next collected id and add one to the running
count when the deletion reports success. -/
def cleanupStep (acc : Int × List Ticket) (tid : String) : Int × List Ticket :=
  let r := delete_ticket tid acc.2
  (acc.1 + (if r.1 then 1 else 0), r.2)

/-- `cleanup_old_tickets` (tickets.py:70-89): load all tickets, compute
`cutoff = now - timedelta(days=days_old)` (seconds), collect the ids of
closed tickets created before the cutoff, then delete them one by one,
counting the deletions that report success. -/
def cleanup_old_tickets (now days_old : Int) (t : List Ticket) :
    Int × List Ticket :=
  let cutoff := now - days_old * 86400
  let toDelete :=
    ((db_get_all_tickets t).filter (shouldCleanup cutoff)).map (·.ticket_id)
  toDelete.foldl cleanupStep ((0 : Int), t)

/-- Whether an `Except` value is a normal return, i.e. no exception was
raised to the caller. -/
def exceptIsOk {ε α : Type} (x : Except ε α) : Bool :=
  match x with
  | .ok _ => true
  | .error _ => false

/-! ## Shared list lemmas -/

/-- A keyed `UPDATE` (map guarded on a key the update never touches) commutes
with a keyed `SELECT` (`find?`). -/
theorem find?_map_pres {α : Type} (p : α → Bool) (f : α → α)
    (hf : ∀ r, p (f r) = p r) (t : List α) :
    (t.map f).find? p = (t.find? p).map f := by
  have hpf : p ∘ f = p := funext hf
  rw [List.find?_map, hpf]

/-- An `UPDATE` whose `WHERE` clause matches no row leaves the table
unchanged. -/
theorem map_ite_eq_self {α : Type} (q : α → Bool) (f : α → α) (t : List α)
    (h : ∀ r ∈ t, q r = false) :
    (t.map fun r => if q r then f r else r) = t := by
  induction t with
  | nil => rfl
  | cons a as ih =>
    have ha := h a (List.mem_cons_self a as)
    have hrest := ih (fun r hr => h r (List.mem_cons_of_mem a hr))
    simp [ha, hrest]

/-! ## Claims about the connection guard and lock discipline -/

/-- Claim C1: the spec states that no store operation nests another store
operation's lock acquisition, so every public store operation — in
particular `set_guild_config` — should perform zero nested acquisitions of
the connection-guard lock.  In the code, `set_guild_config` enters the guard
and then calls `get_guild_config` (database.py:167), which enters the guard
again while the non-reentrant `db_lock` is already held: one nested
acquisition, and the operation deadlocks on every input. -/
theorem set_guild_config_nested_acquisition :
    get_guild_config_acqs false = 0 ∧
    plain_store_op_acqs false = 0 ∧
    set_guild_config_acqs false = 1 ∧
    set_guild_config_run false 0 1 (some 2) none none [] = none :=
  ⟨rfl, rfl, rfl, rfl⟩

/-- Claim C4: the spec states that `setGuildConfig(g, {channel_id: X})`
followed by `setGuildConfig(g, {log_channel_id: Y})` yields a merged config
from `getGuildConfig(g)`.  In the code the very first `set_guild_config`
call never completes: inside its guard it re-acquires the non-reentrant
process lock through `get_guild_config`, so execution deadlocks (`none`)
for every guild id, every field combination and every table state, and the
claimed read-back is never reached. -/
theorem set_guild_config_never_completes (now g : Int) (c l s : Option Int)
    (t : List GuildRow) :
    set_guild_config_run false now g c l s t = none := by
  simp [set_guild_config_run, get_guild_config_run]

/-- Claim C3: for every body `fn` run under `get_db_connection`, a normal
return commits the transaction (the file holds `fn`'s output), an error
rolls it back (the file is unchanged) and the error is re-raised, and in
both cases the connection is closed and the lock is released by the time
the guard hands back control. -/
theorem connection_guard_contract {δ α : Type} (s : GuardState δ)
    (fn : δ → Except String (α × δ)) (h : s.lockHeld = false) :
    ∃ out s', get_db_connection_run s fn = some (out, s') ∧
      s'.lockHeld = false ∧ s'.openConns = s.openConns ∧ s'.dirExists = true ∧
      (∀ a db', fn s.dbFile = .ok (a, db') → out = .ok a ∧ s'.dbFile = db') ∧
      (∀ e, fn s.dbFile = .error e → out = .error e ∧ s'.dbFile = s.dbFile) := by
  unfold get_db_connection_run
  rw [h]
  simp only [Bool.false_eq_true, if_false]
  cases hf : fn s.dbFile with
  | ok p =>
    obtain ⟨a0, db0⟩ := p
    refine ⟨.ok a0, ⟨true, db0, false, s.openConns + 1 - 1⟩,
      rfl, rfl, by simp, rfl, ?_, ?_⟩
    · intro a db' hok
      simp only [Except.ok.injEq, Prod.mk.injEq] at hok
      obtain ⟨rfl, rfl⟩ := hok
      exact ⟨rfl, rfl⟩
    · intro e herr
      simp at herr
  | error e =>
    refine ⟨.error e, ⟨true, s.dbFile, false, s.openConns + 1 - 1⟩,
      rfl, rfl, by simp, rfl, ?_, ?_⟩
    · intro a db' hok
      simp at hok
    · intro e' herr
      simp only [Except.error.injEq] at herr
      subst herr
      exact ⟨rfl, rfl⟩

/-- Witness for C3 at a concrete state and a concrete committing body, and
at a concrete raising body. -/
theorem connection_guard_contract_witness :
    (∃ out s', get_db_connection_run ⟨false, (7 : Int), false, 0⟩
        (fun d => Except.ok (d + 1, d * 2)) = some (out, s') ∧
      s'.lockHeld = false ∧ s'.openConns = 0 ∧ s'.dirExists = true ∧
      (∀ a db', (Except.ok ((7 : Int) + 1, (7 : Int) * 2) :
          Except String (Int × Int)) = .ok (a, db') →
        out = .ok a ∧ s'.dbFile = db') ∧
      (∀ e, (Except.ok ((7 : Int) + 1, (7 : Int) * 2) :
          Except String (Int × Int)) = .error e →
        out = .error e ∧ s'.dbFile = 7)) ∧
    (∃ out s', get_db_connection_run ⟨false, (7 : Int), false, 0⟩
        (fun _ => (Except.error "disk full" : Except String (Int × Int))) =
          some (out, s') ∧
      s'.lockHeld = false ∧ s'.openConns = 0 ∧ s'.dirExists = true ∧
      (∀ a db', (Except.error "disk full" : Except String (Int × Int)) =
          .ok (a, db') → out = .ok a ∧ s'.dbFile = db') ∧
      (∀ e, (Except.error "disk full" : Except String (Int × Int)) =
          .error e → out = .error e ∧ s'.dbFile = 7)) :=
  by
  constructor
  · exact connection_guard_contract ⟨false, (7 : Int), false, 0⟩
      (fun d => Except.ok (d + 1, d * 2)) rfl
  · exact connection_guard_contract ⟨false, (7 : Int), false, 0⟩
      (fun _ => (Except.error "disk full" : Except String (Int × Int))) rfl

/-! ## Claims about insert conflict handling (admin list, ban list, tickets) -/

/-- Counterexample to claim C2 as stated: the claim says every one of
`add_admin_user`, `ban_user` and `create_ticket` reports a duplicate key as
a boolean result and never propagates a raised error, but `create_ticket`
(database.py:386-395) has no `try/except` — inserting a ticket id that is
already present raises, and the error reaches the caller. -/
theorem create_ticket_duplicate_propagates :
    db_create_ticket "abcd1234" 2 "bob" 5 "guild" "again" 10
      [⟨"abcd1234", 1, "alice", 5, "guild", "help me", "open", 0,
        none, none, none, none, none⟩] =
    .error "IntegrityError: UNIQUE constraint failed: tickets.ticket_id" := by
  rfl

/-- Claim C2 amended: `add_admin_user` and `ban_user` catch the duplicate
primary-key integrity error and return `false` (`true` on a fresh key),
but `create_ticket` propagates it — its insert returns normally exactly
when the ticket id is fresh. -/
theorem insert_conflict_reporting (now u : Int) (tA : List AdminRow)
    (reason : Option String) (bb : Option Int) (tB : List BannedRow)
    (tid : String) (uid : Int) (uname : String) (gid : Int) (gname : String)
    (msg : String) (tT : List Ticket) :
    (add_admin_user now u tA).1 = !hasAdminUser u tA ∧
    (ban_user now u reason bb tB).1 = !hasBannedUser u tB ∧
    exceptIsOk (db_create_ticket tid uid uname gid gname msg now tT) =
      !hasTicketRow tid tT := by
  refine ⟨?_, ?_, ?_⟩
  · cases h : hasAdminUser u tA <;> simp [add_admin_user, h]
  · cases h : hasBannedUser u tB <;> simp [ban_user, h]
  · cases h : hasTicketRow tid tT <;> simp [db_create_ticket, exceptIsOk, h]

/-! ## Claims about the reaction counter store -/

/-- The upsert of `increment_user_reactions` adds its delta to whatever
`get_user_reactions` read before, whether or not the `(guild, user)` row
existed. -/
theorem get_user_reactions_increment (t : List ReactionRow) (g u d now : Int) :
    get_user_reactions g u (increment_user_reactions now g u d t) =
      get_user_reactions g u t + d := by
  cases h : hasReactionRow g u t with
  | false =>
    have hnone : t.find? (fun r => r.guild_id == g && r.user_id == u) = none := by
      refine List.find?_eq_none.mpr (fun x hx => ?_)
      have := List.any_eq_false.mp h x hx
      simpa using this
    unfold increment_user_reactions get_user_reactions
    rw [h]
    simp only [Bool.false_eq_true, if_false, List.find?_append, hnone]
    simp
  | true =>
    have hpres : ∀ r : ReactionRow,
        ((fun r : ReactionRow => r.guild_id == g && r.user_id == u)
          (if r.guild_id == g && r.user_id == u then
            { r with reaction_count := r.reaction_count + d,
                     last_reaction_at := some now, updated_at := now }
          else r)) = (r.guild_id == g && r.user_id == u) := by
      intro r
      cases hr : (r.guild_id == g && r.user_id == u) <;> simp [hr]
    unfold increment_user_reactions get_user_reactions
    rw [h]
    simp only [if_true]
    rw [find?_map_pres _ _ hpres]
    cases hfind : t.find? (fun r => r.guild_id == g && r.user_id == u) with
    | none =>
      exfalso
      obtain ⟨x, hx, hpx⟩ := List.any_eq_true.mp h
      exact absurd hpx (by simpa using List.find?_eq_none.mp hfind x hx)
    | some r =>
      have hpr := List.find?_some hfind
      have hgu : r.guild_id = g ∧ r.user_id = u := by simpa using hpr
      simp [hpr, hgu.1, hgu.2]

/-- Claim C5: for a never-seen pair the read returns `0` (and is total, never
an error); increments accumulate — `3` then `2` on a fresh pair reads back
`5`; and in general the upsert adds its delta to the current count when the
row exists and inserts the delta as the count when it does not. -/
theorem reaction_counter_accumulates (t : List ReactionRow)
    (g u d₁ d₂ n₁ n₂ : Int) (h : hasReactionRow g u t = false) :
    get_user_reactions g u t = 0 ∧
    get_user_reactions g u
      (increment_user_reactions n₂ g u d₂
        (increment_user_reactions n₁ g u d₁ t)) = d₁ + d₂ ∧
    ∀ (t' : List ReactionRow) (d n : Int),
      get_user_reactions g u (increment_user_reactions n g u d t') =
        get_user_reactions g u t' + d := by
  have hz : get_user_reactions g u t = 0 := by
    unfold get_user_reactions
    rw [List.find?_eq_none.mpr (fun x hx => by
      have := List.any_eq_false.mp h x hx
      simpa using this)]
  refine ⟨hz, ?_, fun t' d n => get_user_reactions_increment t' g u d n⟩
  rw [get_user_reactions_increment, get_user_reactions_increment, hz]
  ring

/-- Witness for C5 on the empty store with deltas `3` and `2`. -/
theorem reaction_counter_accumulates_witness :
    get_user_reactions 1 2 [] = 0 ∧
    get_user_reactions 1 2
      (increment_user_reactions 20 1 2 2
        (increment_user_reactions 10 1 2 3 [])) = 3 + 2 ∧
    ∀ (t' : List ReactionRow) (d n : Int),
      get_user_reactions 1 2 (increment_user_reactions n 1 2 d t') =
        get_user_reactions 1 2 t' + d :=
  reaction_counter_accumulates [] 1 2 3 2 10 20 rfl

/-! ## Claims about the ticket store -/

/-- A concrete open ticket used to instantiate the ticket claims. -/
def sampleTicket : Ticket :=
  ⟨"t1", 1, "alice", 5, "guild", "help me", "open", 0,
   none, none, none, none, none⟩

/-- A row found by a keyed `SELECT` witnesses the primary-key conflict
test. -/
theorem hasTicketRow_of_get (tid : String) (t : List Ticket) (tk : Ticket)
    (h : get_ticket tid t = some tk) : hasTicketRow tid t = true :=
  List.any_eq_true.mpr ⟨tk,
    @List.mem_of_find?_eq_some Ticket (fun r => r.ticket_id == tid) tk t h,
    @List.find?_some Ticket (fun r => r.ticket_id == tid) tk t h⟩

/-- `applyTicketUpdates` never touches the primary key, so a keyed `UPDATE`
commutes with `get_ticket`. -/
theorem get_ticket_map_update (tid : String) (u : TicketUpdates)
    (t : List Ticket) :
    get_ticket tid
      (t.map fun r => if r.ticket_id == tid then applyTicketUpdates u r else r)
      = (get_ticket tid t).map
          (fun r => if r.ticket_id == tid then applyTicketUpdates u r else r) := by
  refine find?_map_pres _ _ (fun r => ?_) t
  cases hr : (r.ticket_id == tid) <;> simp [applyTicketUpdates, hr]

/-- After a non-empty `update_ticket` on a present id, reading the ticket
back gives the row with exactly the provided fields overwritten. -/
theorem get_ticket_after_update (tid : String) (u : TicketUpdates)
    (t : List Ticket) (tk : Ticket) (h : get_ticket tid t = some tk)
    (hu : u.isEmptyBag = false) :
    get_ticket tid (update_ticket tid u t).2 = some (applyTicketUpdates u tk) := by
  have h' : t.find? (fun r => r.ticket_id == tid) = some tk := h
  have hp : (tk.ticket_id == tid) = true :=
    @List.find?_some Ticket (fun r => r.ticket_id == tid) tk t h'
  unfold update_ticket
  rw [hu]
  simp only [Bool.false_eq_true, if_false]
  rw [get_ticket_map_update, h]
  have heq : tk.ticket_id = tid := by simpa using hp
  simp [Option.map_some, heq]

/-- Claim C8: `update_ticket` returns `false` and leaves the table untouched
on an empty field set; returns `false` and leaves the table untouched when
no row has the id; and returns `true` exactly when the field set is
non-empty and a row matched, in which case the matched row carries the
provided fields afterwards. -/
theorem update_ticket_contract (tid : String) (u : TicketUpdates)
    (t : List Ticket) :
    (u.isEmptyBag = true → update_ticket tid u t = (false, t)) ∧
    (hasTicketRow tid t = false → update_ticket tid u t = (false, t)) ∧
    ((update_ticket tid u t).1 = true ↔
      u.isEmptyBag = false ∧ hasTicketRow tid t = true) ∧
    (∀ tk, get_ticket tid t = some tk → u.isEmptyBag = false →
      get_ticket tid (update_ticket tid u t).2 =
        some (applyTicketUpdates u tk)) := by
  refine ⟨?_, ?_, ?_, fun tk h hu => get_ticket_after_update tid u t tk h hu⟩
  · intro he
    simp [update_ticket, he]
  · intro hno
    cases he : u.isEmptyBag with
    | true => simp [update_ticket, he]
    | false =>
      have hid : (t.map fun r =>
          if r.ticket_id == tid then applyTicketUpdates u r else r) = t := by
        refine map_ite_eq_self _ _ t (fun r hr => ?_)
        have := List.any_eq_false.mp hno r hr
        simpa using this
      unfold update_ticket
      rw [he]
      simp only [Bool.false_eq_true, if_false]
      rw [hid, hno]
  · cases he : u.isEmptyBag <;> simp [update_ticket, he]

/-- Witness for C8: empty bag, missing id, and a successful status update on
a one-row table. -/
theorem update_ticket_contract_witness :
    update_ticket "t1" ⟨none, none, none, none, none, none⟩ [sampleTicket] =
      (false, [sampleTicket]) ∧
    update_ticket "zz" ⟨some "x", none, none, none, none, none⟩ [sampleTicket] =
      (false, [sampleTicket]) ∧
    (update_ticket "t1" ⟨some "x", none, none, none, none, none⟩
      [sampleTicket]).1 = true ∧
    get_ticket "t1" (update_ticket "t1"
        ⟨some "x", none, none, none, none, none⟩ [sampleTicket]).2 =
      some (applyTicketUpdates ⟨some "x", none, none, none, none, none⟩
        sampleTicket) := by
  refine ⟨(update_ticket_contract "t1" _ [sampleTicket]).1 rfl,
    (update_ticket_contract "zz" _ [sampleTicket]).2.1 (by decide),
    ((update_ticket_contract "t1" _ [sampleTicket]).2.2.1).mpr
      ⟨rfl, by decide⟩,
    (update_ticket_contract "t1" _ [sampleTicket]).2.2.2 sampleTicket
      (by decide) rfl⟩

/-- A truthy optional string is in particular present. -/
theorem isSome_of_truthyStr (o : Option String) (h : truthyStr o = true) :
    o.isSome = true := by
  cases o <;> simp [truthyStr] at h ⊢

/-- Counterexample to claim C6 as stated: the claim says `close_ticket`
stamps `admin_response` exactly when a responder is given, but the code
stamps it based on the response argument alone — closing with a responder
and no response leaves `admin_response` unset while `admin_responder` and
`response_timestamp` are stamped. -/
theorem close_ticket_response_stamp_cex :
    get_ticket "t1" (close_ticket 100 200 "t1" "admin" none (some "bob")
        [sampleTicket]).2 =
      some ⟨"t1", 1, "alice", 5, "guild", "help me", "closed_by_admin", 0,
            none, some "bob", some 200, some "admin", some 100⟩ := by
  decide

/-- Claim C6 amended: for an existing ticket, `close_ticket` reports success,
sets the status to `closed_by_<closedBy>`, stamps `closed_timestamp` and
`closed_by`, stamps `admin_response` exactly when a (truthy) response is
given, stamps `admin_responder` and `response_timestamp` exactly when a
(truthy) responder is given, and touches nothing else — so closing with
both a response and a responder yields `closed_by_admin` status and the
response readable back. -/
theorem close_ticket_field_semantics (t : List Ticket) (tid cb : String)
    (resp respd : Option String) (n₁ n₂ : Int) (tk : Ticket)
    (h : get_ticket tid t = some tk) :
    (close_ticket n₁ n₂ tid cb resp respd t).1 = true ∧
    ∃ tk', get_ticket tid (close_ticket n₁ n₂ tid cb resp respd t).2 =
        some tk' ∧
      tk'.status = "closed_by_" ++ cb ∧
      tk'.closed_timestamp = some n₁ ∧
      tk'.closed_by = some cb ∧
      tk'.admin_response =
        (if truthyStr resp then resp else tk.admin_response) ∧
      tk'.admin_responder =
        (if truthyStr respd then respd else tk.admin_responder) ∧
      tk'.response_timestamp =
        (if truthyStr respd then some n₂ else tk.response_timestamp) ∧
      tk'.user_id = tk.user_id ∧ tk'.user_name = tk.user_name ∧
      tk'.guild_id = tk.guild_id ∧ tk'.guild_name = tk.guild_name ∧
      tk'.message = tk.message ∧ tk'.created_at = tk.created_at := by
  have hhas := hasTicketRow_of_get tid t tk h
  have main : ∀ u : TicketUpdates, u.isEmptyBag = false →
      (update_ticket tid u t).1 = true ∧
      get_ticket tid (update_ticket tid u t).2 =
        some (applyTicketUpdates u tk) := by
    intro u hu
    constructor
    · unfold update_ticket
      rw [hu]
      simpa using hhas
    · exact get_ticket_after_update tid u t tk h hu
  cases hr : truthyStr resp with
  | false =>
    cases hd : truthyStr respd with
    | false =>
      have hc : close_ticket n₁ n₂ tid cb resp respd t =
          update_ticket tid
            ⟨some ("closed_by_" ++ cb), none, none, none, some cb, some n₁⟩
            t := by
        simp [close_ticket, hr, hd]
      obtain ⟨h1, h2⟩ := main
        ⟨some ("closed_by_" ++ cb), none, none, none, some cb, some n₁⟩ rfl
      rw [hc]
      exact ⟨h1, _, h2, by simp [applyTicketUpdates, hr, hd]⟩
    | true =>
      have hc : close_ticket n₁ n₂ tid cb resp respd t =
          update_ticket tid
            ⟨some ("closed_by_" ++ cb), none, respd, some n₂, some cb,
             some n₁⟩ t := by
        simp [close_ticket, hr, hd]
      obtain ⟨h1, h2⟩ := main
        ⟨some ("closed_by_" ++ cb), none, respd, some n₂, some cb, some n₁⟩
        rfl
      rw [hc]
      exact ⟨h1, _, h2, by
        simp [applyTicketUpdates, hr, hd, isSome_of_truthyStr respd hd]⟩
  | true =>
    cases hd : truthyStr respd with
    | false =>
      have hc : close_ticket n₁ n₂ tid cb resp respd t =
          update_ticket tid
            ⟨some ("closed_by_" ++ cb), resp, none, none, some cb, some n₁⟩
            t := by
        simp [close_ticket, hr, hd]
      obtain ⟨h1, h2⟩ := main
        ⟨some ("closed_by_" ++ cb), resp, none, none, some cb, some n₁⟩ rfl
      rw [hc]
      exact ⟨h1, _, h2, by
        simp [applyTicketUpdates, hr, hd, isSome_of_truthyStr resp hr]⟩
    | true =>
      have hc : close_ticket n₁ n₂ tid cb resp respd t =
          update_ticket tid
            ⟨some ("closed_by_" ++ cb), resp, respd, some n₂, some cb,
             some n₁⟩ t := by
        simp [close_ticket, hr, hd]
      obtain ⟨h1, h2⟩ := main
        ⟨some ("closed_by_" ++ cb), resp, respd, some n₂, some cb, some n₁⟩
        rfl
      rw [hc]
      exact ⟨h1, _, h2, by
        simp [applyTicketUpdates, hr, hd, isSome_of_truthyStr resp hr,
          isSome_of_truthyStr respd hd]⟩

/-- Witness for C6 at the spec's own example: close with response and
responder both given. -/
theorem close_ticket_field_semantics_witness :
    (close_ticket 100 200 "t1" "admin" (some "resp") (some "respName")
      [sampleTicket]).1 = true ∧
    ∃ tk', get_ticket "t1" (close_ticket 100 200 "t1" "admin" (some "resp")
        (some "respName") [sampleTicket]).2 = some tk' ∧
      tk'.status = "closed_by_" ++ "admin" ∧
      tk'.closed_timestamp = some 100 ∧
      tk'.closed_by = some "admin" ∧
      tk'.admin_response = (if truthyStr (some "resp") then some "resp"
        else sampleTicket.admin_response) ∧
      tk'.admin_responder = (if truthyStr (some "respName") then
        some "respName" else sampleTicket.admin_responder) ∧
      tk'.response_timestamp = (if truthyStr (some "respName") then some 200
        else sampleTicket.response_timestamp) ∧
      tk'.user_id = sampleTicket.user_id ∧
      tk'.user_name = sampleTicket.user_name ∧
      tk'.guild_id = sampleTicket.guild_id ∧
      tk'.guild_name = sampleTicket.guild_name ∧
      tk'.message = sampleTicket.message ∧
      tk'.created_at = sampleTicket.created_at :=
  close_ticket_field_semantics [sampleTicket] "t1" "admin" (some "resp")
    (some "respName") 100 200 sampleTicket rfl

/-- Folding the deletion loop over distinct ids that are all present removes
exactly the rows carrying those ids and counts one per id. -/
theorem cleanupStep_foldl (ids : List String) (t : List Ticket) (c : Int)
    (hn : (t.map Ticket.ticket_id).Nodup) (hids : ids.Nodup)
    (hsub : ∀ i ∈ ids, i ∈ t.map Ticket.ticket_id) :
    ids.foldl cleanupStep (c, t) =
      (c + ids.length, t.filter (fun r => !(ids.contains r.ticket_id))) := by
  induction ids generalizing t c with
  | nil => simp
  | cons i ids ih =>
    obtain ⟨hnotin, hids'⟩ := List.nodup_cons.mp hids
    obtain ⟨r0, hr0, hr0id⟩ :=
      List.mem_map.mp (hsub i (List.mem_cons_self i ids))
    have hhas : hasTicketRow i t = true :=
      List.any_eq_true.mpr ⟨r0, hr0, by simp [hr0id]⟩
    have hstep : cleanupStep (c, t) i =
        (c + 1, t.filter (fun r => !(r.ticket_id == i))) := by
      simp [cleanupStep, delete_ticket, hhas]
    have hn₁ : ((t.filter (fun r => !(r.ticket_id == i))).map
        Ticket.ticket_id).Nodup :=
      List.Nodup.sublist (List.Sublist.map _ (List.filter_sublist t)) hn
    have hsub₁ : ∀ j ∈ ids,
        j ∈ (t.filter (fun r => !(r.ticket_id == i))).map Ticket.ticket_id := by
      intro j hj
      obtain ⟨r, hr, hrid⟩ :=
        List.mem_map.mp (hsub j (List.mem_cons_of_mem i hj))
      refine List.mem_map.mpr ⟨r, List.mem_filter.mpr ⟨hr, ?_⟩, hrid⟩
      have hne : j ≠ i := fun he => hnotin (he ▸ hj)
      simp [hrid, hne]
    rw [List.foldl_cons, hstep,
      ih (t.filter (fun r => !(r.ticket_id == i))) (c + 1) hn₁ hids' hsub₁]
    refine Prod.ext ?_ ?_
    · simp only [List.length_cons]
      push_cast
      ring
    · rw [List.filter_filter]
      refine List.filter_congr (fun x hx => ?_)
      simp only [List.contains_cons, Bool.not_or]
      exact Bool.and_comm _ _

/-- Claim C7: `cleanup_old_tickets` deletes exactly the tickets whose status
begins with `closed` and whose `created_at` lies before `now - daysOld`
days, returns the count of tickets actually removed, and keeps every ticket
whose status is `open` whatever its age.  The hypothesis is the `tickets`
primary-key invariant: ids are pairwise distinct. -/
theorem cleanup_old_tickets_spec (t : List Ticket) (now days_old : Int)
    (hn : (t.map Ticket.ticket_id).Nodup) :
    (cleanup_old_tickets now days_old t).1 =
      ((t.filter (shouldCleanup (now - days_old * 86400))).length : Int) ∧
    (cleanup_old_tickets now days_old t).2 =
      t.filter (fun tk => !(shouldCleanup (now - days_old * 86400) tk)) ∧
    ∀ tk ∈ t, tk.status = "open" →
      tk ∈ (cleanup_old_tickets now days_old t).2 := by
  have hids : (((t.filter (shouldCleanup (now - days_old * 86400))).map
      Ticket.ticket_id)).Nodup :=
    List.Nodup.sublist (List.Sublist.map _ (List.filter_sublist t)) hn
  have hsub : ∀ i ∈ (t.filter (shouldCleanup (now - days_old * 86400))).map
      Ticket.ticket_id, i ∈ t.map Ticket.ticket_id := by
    intro i hi
    obtain ⟨r, hr, hrid⟩ := List.mem_map.mp hi
    exact List.mem_map.mpr ⟨r, List.mem_filter.mp hr |>.1, hrid⟩
  have hfold := cleanupStep_foldl
    ((t.filter (shouldCleanup (now - days_old * 86400))).map Ticket.ticket_id)
    t 0 hn hids hsub
  have hrun : cleanup_old_tickets now days_old t =
      ((0 : Int) + (((t.filter (shouldCleanup (now - days_old * 86400))).map
          Ticket.ticket_id).length : Int),
        t.filter (fun r =>
          !(((t.filter (shouldCleanup (now - days_old * 86400))).map
            Ticket.ticket_id).contains r.ticket_id))) := by
    unfold cleanup_old_tickets db_get_all_tickets
    exact hfold
  have hcontains : ∀ r ∈ t,
      (((t.filter (shouldCleanup (now - days_old * 86400))).map
        Ticket.ticket_id).contains r.ticket_id) =
      shouldCleanup (now - days_old * 86400) r := by
    intro r hr
    cases hpr : shouldCleanup (now - days_old * 86400) r with
    | true =>
      have hm : r.ticket_id ∈ (t.filter
          (shouldCleanup (now - days_old * 86400))).map Ticket.ticket_id :=
        List.mem_map.mpr ⟨r, List.mem_filter.mpr ⟨hr, hpr⟩, rfl⟩
      exact List.elem_iff.mpr hm
    | false =>
      cases hc : (((t.filter (shouldCleanup (now - days_old * 86400))).map
          Ticket.ticket_id).contains r.ticket_id) with
      | false => rfl
      | true =>
        exfalso
        obtain ⟨r', hr', hrid'⟩ := List.mem_map.mp (List.elem_iff.mp hc)
        obtain ⟨hr't, hpr'⟩ := List.mem_filter.mp hr'
        have : r' = r :=
          List.inj_on_of_nodup_map hn hr't hr hrid'
        rw [this] at hpr'
        rw [hpr'] at hpr
        exact Bool.true_eq_false.mp hpr
  have htable : (cleanup_old_tickets now days_old t).2 =
      t.filter (fun tk => !(shouldCleanup (now - days_old * 86400) tk)) := by
    rw [hrun]
    refine List.filter_congr (fun x hx => ?_)
    rw [hcontains x hx]
  refine ⟨?_, htable, ?_⟩
  · rw [hrun]
    simp [List.length_map]
  · intro tk htk hst
    rw [htable]
    refine List.mem_filter.mpr ⟨htk, ?_⟩
    have hsw : tk.status.startsWith "closed" = false := by
      rw [hst]
      decide
    simp [shouldCleanup, hsw]

/-- Witness for C7 on the spec's own scenario at `now = 40 * 86400` with a
30-day window: a ticket created 31 days ago and closed, one created 29 days
ago and closed, and an `open` ticket created 400 days ago (`created_at`
is negative: 360 days before the epoch of this clock). -/
theorem cleanup_old_tickets_spec_witness :
    (cleanup_old_tickets (40 * 86400) 30
        [⟨"a1", 1, "u", 5, "g", "m", "closed_by_admin", 9 * 86400,
          none, none, none, some "admin", some (10 * 86400)⟩,
         ⟨"b2", 2, "v", 5, "g", "m", "closed_by_admin", 11 * 86400,
          none, none, none, some "admin", some (12 * 86400)⟩,
         ⟨"c3", 3, "w", 5, "g", "m", "open", -360 * 86400,
          none, none, none, none, none⟩]).1 =
      (([⟨"a1", 1, "u", 5, "g", "m", "closed_by_admin", 9 * 86400,
          none, none, none, some "admin", some (10 * 86400)⟩,
         ⟨"b2", 2, "v", 5, "g", "m", "closed_by_admin", 11 * 86400,
          none, none, none, some "admin", some (12 * 86400)⟩,
         ⟨"c3", 3, "w", 5, "g", "m", "open", -360 * 86400,
          none, none, none, none, none⟩].filter
        (shouldCleanup (40 * 86400 - 30 * 86400))).length : Int) ∧
    (cleanup_old_tickets (40 * 86400) 30
        [⟨"a1", 1, "u", 5, "g", "m", "closed_by_admin", 9 * 86400,
          none, none, none, some "admin", some (10 * 86400)⟩,
         ⟨"b2", 2, "v", 5, "g", "m", "closed_by_admin", 11 * 86400,
          none, none, none, some "admin", some (12 * 86400)⟩,
         ⟨"c3", 3, "w", 5, "g", "m", "open", -360 * 86400,
          none, none, none, none, none⟩]).2 =
      [⟨"a1", 1, "u", 5, "g", "m", "closed_by_admin", 9 * 86400,
          none, none, none, some "admin", some (10 * 86400)⟩,
         ⟨"b2", 2, "v", 5, "g", "m", "closed_by_admin", 11 * 86400,
          none, none, none, some "admin", some (12 * 86400)⟩,
         ⟨"c3", 3, "w", 5, "g", "m", "open", -360 * 86400,
          none, none, none, none, none⟩].filter
        (fun tk => !(shouldCleanup (40 * 86400 - 30 * 86400) tk)) ∧
    ∀ tk ∈ [⟨"a1", 1, "u", 5, "g", "m", "closed_by_admin", 9 * 86400,
          none, none, none, some "admin", some (10 * 86400)⟩,
         ⟨"b2", 2, "v", 5, "g", "m", "closed_by_admin", 11 * 86400,
          none, none, none, some "admin", some (12 * 86400)⟩,
         ⟨"c3", 3, "w", 5, "g", "m", "open", -360 * 86400,
          none, none, none, none, none⟩], tk.status = "open" →
      tk ∈ (cleanup_old_tickets (40 * 86400) 30
        [⟨"a1", 1, "u", 5, "g", "m", "closed_by_admin", 9 * 86400,
          none, none, none, some "admin", some (10 * 86400)⟩,
         ⟨"b2", 2, "v", 5, "g", "m", "closed_by_admin", 11 * 86400,
          none, none, none, some "admin", some (12 * 86400)⟩,
         ⟨"c3", 3, "w", 5, "g", "m", "open", -360 * 86400,
          none, none, none, none, none⟩]).2 :=
  cleanup_old_tickets_spec
    [⟨"a1", 1, "u", 5, "g", "m", "closed_by_admin", 9 * 86400,
      none, none, none, some "admin", some (10 * 86400)⟩,
     ⟨"b2", 2, "v", 5, "g", "m", "closed_by_admin", 11 * 86400,
      none, none, none, some "admin", some (12 * 86400)⟩,
     ⟨"c3", 3, "w", 5, "g", "m", "open", -360 * 86400,
      none, none, none, none, none⟩]
    (40 * 86400) 30 (by decide)

/-- A `w`-digit hexadecimal rendering always has `w` characters. -/
theorem natToHexChars_length (w : Nat) : ∀ n, (natToHexChars w n).length = w := by
  induction w with
  | zero => intro n; rfl
  | succ w ih => intro n; simp [natToHexChars, ih]

/-- The canonical uuid string has the usual 36 characters
(32 hex digits and 4 hyphens). -/
theorem uuidCanonicalChars_length (n : Nat) :
    (uuidCanonicalChars n).length = 36 := by
  unfold uuidCanonicalChars
  simp [natToHexChars_length]

/-- `str(uuid.uuid4())[:8]` has exactly 8 characters. -/
theorem ticket_id_of_uuid_length (n : Nat) :
    (ticket_id_of_uuid n).length = 8 := by
  show ((uuidCanonicalChars n).take 8).length = 8
  rw [List.length_take, uuidCanonicalChars_length]
  rfl

/-- Claim C9: `create_ticket` returns the 8-character slice of the freshly
generated 128-bit identifier's canonical string, and — provided the sliced
id is not already a primary key, which is the fresh-generation assumption —
the ticket is immediately readable back with status `open` and the given
user, guild and message fields. -/
theorem create_ticket_fresh_id_and_open (n : Nat) (now uid gid : Int)
    (uname gname msg : String) (t : List Ticket)
    (h : hasTicketRow (ticket_id_of_uuid n) t = false) :
    (ticket_id_of_uuid n).length = 8 ∧
    ticket_id_of_uuid n = String.mk ((uuidCanonicalChars n).take 8) ∧
    ∃ t', tickets_create_ticket n now uid uname gid gname msg t =
        .ok (ticket_id_of_uuid n, t') ∧
      get_ticket (ticket_id_of_uuid n) t' =
        some ⟨ticket_id_of_uuid n, uid, uname, gid, gname, msg, "open", now,
              none, none, none, none, none⟩ := by
  have hnone : t.find? (fun r => r.ticket_id == ticket_id_of_uuid n) = none := by
    refine List.find?_eq_none.mpr (fun x hx => ?_)
    have := List.any_eq_false.mp h x hx
    simpa using this
  refine ⟨ticket_id_of_uuid_length n, rfl,
    t ++ [⟨ticket_id_of_uuid n, uid, uname, gid, gname, msg, "open", now,
           none, none, none, none, none⟩], ?_, ?_⟩
  · unfold tickets_create_ticket db_create_ticket
    simp only [h]
    rfl
  · unfold get_ticket
    rw [List.find?_append, hnone]
    simp

/-- Witness for C9: the creation postcondition at the concrete uuid value
`0` on the empty table. -/
theorem create_ticket_fresh_id_and_open_witness :
    (ticket_id_of_uuid 0).length = 8 ∧
    ticket_id_of_uuid 0 = String.mk ((uuidCanonicalChars 0).take 8) ∧
    ∃ t', tickets_create_ticket 0 77 1 "alice" 5 "guild" "help" [] =
        .ok (ticket_id_of_uuid 0, t') ∧
      get_ticket (ticket_id_of_uuid 0) t' =
        some ⟨ticket_id_of_uuid 0, 1, "alice", 5, "guild", "help", "open", 77,
              none, none, none, none, none⟩ :=
  create_ticket_fresh_id_and_open 0 77 1 5 "alice" "guild" "help" [] rfl

/-! ## Claim about guild-config partial updates never clearing fields -/

/-- The update branch of `set_guild_config` never touches `guild_id`, so the
keyed read commutes with it. -/
theorem get_guild_config_map_update (g' now g : Int) (c l s : Option Int)
    (t : List GuildRow) :
    get_guild_config g'
      (t.map fun r =>
        if r.guild_id == g then
          { r with
            channel_id := if c.isSome then c else r.channel_id
            log_channel_id := if l.isSome then l else r.log_channel_id
            support_channel_id := if s.isSome then s else r.support_channel_id
            updated_at := now }
        else r)
      = (get_guild_config g' t).map
          (fun r =>
            if r.guild_id == g then
              { r with
                channel_id := if c.isSome then c else r.channel_id
                log_channel_id := if l.isSome then l else r.log_channel_id
                support_channel_id :=
                  if s.isSome then s else r.support_channel_id
                updated_at := now }
            else r) := by
  refine find?_map_pres _ _ (fun r => ?_) t
  cases hr : (r.guild_id == g) <;> simp [hr]

/-- Branch equation: with an existing row and at least one provided field,
`set_guild_config` runs the keyed `UPDATE`. -/
theorem set_guild_config_data_update (now g : Int) (c l s : Option Int)
    (t : List GuildRow) (r₀ : GuildRow)
    (hex : get_guild_config g t = some r₀)
    (hprov : (c.isSome || l.isSome || s.isSome) = true) :
    set_guild_config_data now g c l s t =
      t.map (fun r =>
        if r.guild_id == g then
          { r with
            channel_id := if c.isSome then c else r.channel_id
            log_channel_id := if l.isSome then l else r.log_channel_id
            support_channel_id := if s.isSome then s else r.support_channel_id
            updated_at := now }
        else r) := by
  unfold set_guild_config_data set_guild_config_body
  rw [hex, hprov]
  simp

/-- Branch equation: with an existing row and no provided field, the update
list is empty and `set_guild_config` runs no statement at all. -/
theorem set_guild_config_data_skip (now g : Int) (c l s : Option Int)
    (t : List GuildRow) (r₀ : GuildRow)
    (hex : get_guild_config g t = some r₀)
    (hprov : (c.isSome || l.isSome || s.isSome) = false) :
    set_guild_config_data now g c l s t = t := by
  unfold set_guild_config_data set_guild_config_body
  rw [hex, hprov]
  simp

/-- Branch equation: with no existing row, `set_guild_config` inserts a fresh
row carrying the provided values. -/
theorem set_guild_config_data_insert (now g : Int) (c l s : Option Int)
    (t : List GuildRow) (hex : get_guild_config g t = none) :
    set_guild_config_data now g c l s t = t ++ [⟨g, c, l, s, now, now⟩] := by
  unfold set_guild_config_data set_guild_config_body
  rw [hex]

/-- Claim C10: `None` for a field of `set_guild_config` means "not provided",
never "clear": a field that is present (`some`) for some guild's row stays
present after any `set_guild_config` call, and calling it on an existing
row with all three fields `None` builds an empty update list, skips the
`UPDATE` statement entirely, and returns the table unchanged —
`updated_at` included. -/
theorem set_guild_config_no_field_clearing (t : List GuildRow)
    (g g' now : Int) (c l s : Option Int) (r : GuildRow)
    (h : get_guild_config g' t = some r) :
    set_guild_config_data now g' none none none t = t ∧
    ∃ r', get_guild_config g' (set_guild_config_data now g c l s t) =
        some r' ∧
      (r.channel_id.isSome = true → r'.channel_id.isSome = true) ∧
      (r.log_channel_id.isSome = true → r'.log_channel_id.isSome = true) ∧
      (r.support_channel_id.isSome = true →
        r'.support_channel_id.isSome = true) := by
  constructor
  · exact set_guild_config_data_skip now g' none none none t r h rfl
  · cases hex : get_guild_config g t with
    | none =>
      rw [set_guild_config_data_insert now g c l s t hex]
      refine ⟨r, ?_, fun hh => hh, fun hh => hh, fun hh => hh⟩
      unfold get_guild_config at h ⊢
      rw [List.find?_append, h]
      rfl
    | some r₀ =>
      cases hprov : (c.isSome || l.isSome || s.isSome) with
      | false =>
        rw [set_guild_config_data_skip now g c l s t r₀ hex hprov]
        exact ⟨r, h, fun hh => hh, fun hh => hh, fun hh => hh⟩
      | true =>
        rw [set_guild_config_data_update now g c l s t r₀ hex hprov]
        rw [get_guild_config_map_update, h]
        cases hg : (r.guild_id == g) with
        | false =>
          have hne : r.guild_id ≠ g := by simpa using hg
          refine ⟨r, ?_, fun hh => hh, fun hh => hh, fun hh => hh⟩
          simp [hne]
        | true =>
          have heq : r.guild_id = g := by simpa using hg
          refine ⟨{ r with
              channel_id := if c.isSome then c else r.channel_id
              log_channel_id := if l.isSome then l else r.log_channel_id
              support_channel_id :=
                if s.isSome then s else r.support_channel_id
              updated_at := now }, by simp [heq], ?_, ?_, ?_⟩ <;>
            intro hh <;>
            [cases hc : c.isSome; cases hl : l.isSome; cases hs : s.isSome] <;>
            simp_all

/-- Supporting observation for the deadlock finding: the SQL statements of
`set_guild_config` do implement the intended merge — on the data-level
semantics (as if the nested existence read returned), writing
`channel_id = X` and then `log_channel_id = Y` for a fresh guild reads both
fields back.  Only the nested lock acquisition keeps the real operation
from ever reaching them. -/
theorem set_guild_config_data_merge (g now₁ now₂ x y : Int)
    (t : List GuildRow) (h : get_guild_config g t = none) :
    ∃ r', get_guild_config g
        (set_guild_config_data now₂ g none (some y) none
          (set_guild_config_data now₁ g (some x) none none t)) = some r' ∧
      r'.channel_id = some x ∧ r'.log_channel_id = some y := by
  rw [set_guild_config_data_insert now₁ g (some x) none none t h]
  have hget : get_guild_config g
      (t ++ [⟨g, some x, none, none, now₁, now₁⟩]) =
      some ⟨g, some x, none, none, now₁, now₁⟩ := by
    unfold get_guild_config at h ⊢
    rw [List.find?_append, h]
    simp
  rw [set_guild_config_data_update now₂ g none (some y) none _ _ hget rfl]
  rw [get_guild_config_map_update, hget]
  simp

/-- Witness for C10 on a one-row table for guild `1` whose `channel_id` is
set, updated by a call providing only `log_channel_id` for the same
guild. -/
theorem set_guild_config_no_field_clearing_witness :
    set_guild_config_data 50 1 none none none
      [⟨1, some 9, none, none, 0, 0⟩] = [⟨1, some 9, none, none, 0, 0⟩] ∧
    ∃ r', get_guild_config 1 (set_guild_config_data 50 1 none (some 4) none
        [⟨1, some 9, none, none, 0, 0⟩]) = some r' ∧
      ((⟨1, some 9, none, none, 0, 0⟩ : GuildRow).channel_id.isSome = true →
        r'.channel_id.isSome = true) ∧
      ((⟨1, some 9, none, none, 0, 0⟩ : GuildRow).log_channel_id.isSome = true →
        r'.log_channel_id.isSome = true) ∧
      ((⟨1, some 9, none, none, 0, 0⟩ : GuildRow).support_channel_id.isSome
          = true →
        r'.support_channel_id.isSome = true) :=
  set_guild_config_no_field_clearing [⟨1, some 9, none, none, 0, 0⟩]
    1 1 50 none (some 4) none ⟨1, some 9, none, none, 0, 0⟩ rfl
